import Mathlib

/-!
Shallow embedding of the client connection bootstrap layer of a WebSocket
library: the redirect-following connect driver, the mode detector, the
address-racing connector (`src/client/mod.rs`), the no-TLS passthrough
wrapper (`src/client/plain.rs`) and the two TLS backend wrappers
(`src/client/tls.rs`).

External effects (URI parsing from the `http` crate, address resolution,
TCP connection, the TLS libraries, `set_nodelay` and the external handshake
engine) are modelled as explicit environment records of pure functions, so
each theorem quantifies over the behaviour of the collaborators.  A Rust
`panic!` / `unreachable!` is modelled as an explicit `Outcome.panic` value
carrying the panic message.  Machine integers (`u8` for `max_redirects`,
`u16` for ports) are modelled as `Nat` with an explicit `% 256` where the
source performs `u8` arithmetic.
-/

namespace WsClient

/-- Rust `stream::Mode`: plain TCP or TLS. -/
inductive Mode where
  | plain
  | tls
deriving DecidableEq, Repr

/-- An HTTP response as inspected by this layer: status code and header list
(models the `http::Response` accessors `status()` and `headers().get(..)`
used in the source). -/
structure Response where
  status : Nat
  headers : List (String × String)
deriving DecidableEq, Repr

/-- The crate error enum, restricted to the variants this layer constructs or
inspects (`Error::Url`, `Error::Http`) plus opaque carriers for errors
produced by external collaborators (I/O, TLS, parsing), which this layer
only ever propagates. -/
inductive Error where
  | url (msg : String)
  | http (res : Response)
  | io (msg : String)
  | tls (msg : String)
  | other (msg : String)
deriving DecidableEq, Repr

/-- Outcome of running code that may also panic: Rust `panic!` and
`unreachable!` are modelled as the `panic` value carrying the message. -/
inductive Outcome (α : Type) where
  | ok (a : α)
  | err (e : Error)
  | panic (msg : String)
deriving DecidableEq, Repr

/-- An `http::Uri`, abstracted to the accessors the source uses:
`scheme_str()`, `host()`, `port_u16()`, plus the remaining rendered text
(path and the rest) so that distinct URIs stay distinct. -/
structure Uri where
  scheme : Option String
  host : Option String
  port : Option Nat
  path : String
deriving DecidableEq, Repr

/-- Rendering of a `Uri`, standing for the `Display` instance used by
`format!("Unable to connect to {}", uri)`. -/
def uriRender (u : Uri) : String :=
  (match u.scheme with
    | some s => s ++ "://"
    | none => "") ++
  u.host.getD "" ++
  (match u.port with
    | some p => ":" ++ toString p
    | none => "") ++
  u.path

/-- An `http::Request<()>`: method, target URI, version and header multimap;
the body is always `()` and is not represented.  `Parts` (the result of
`Request::into_parts`) carries the same fields, so the same structure stands
for both. -/
structure Request where
  method : String
  uri : Uri
  version : Nat
  headers : List (String × String)
deriving DecidableEq, Repr

/-- Abstract handles for the transport objects; the layer never inspects
their contents, so plain identifiers suffice. -/
abbrev SocketAddr := Nat

/-- Abstract handle for a freshly connected `std::net::TcpStream`. -/
abbrev TcpStream := Nat

/-- Abstract handle for the wrapped (`AutoStream`) stream the driver and the
handshake engine operate on. -/
abbrev ConnStream := Nat

/-- Abstract handle for the protocol-engine `WebSocket` returned on
success; this layer never inspects it. -/
abbrev WebSocket := Unit

/-- Opaque `WebSocketConfig` bundle, passed through unchanged. -/
abbrev Config := Unit

/-- Result of `client_with_config` (the external handshake engine): success
with a websocket and response, `HandshakeError::Failure`, or
`HandshakeError::Interrupted`. -/
inductive EngineResult where
  | success (ws : WebSocket) (res : Response)
  | failure (e : Error)
  | interrupted
deriving DecidableEq, Repr

/-- Environment of external effects consumed by the driver:
`str::parse::<Uri>` (used on the `Location` header), `to_socket_addrs`,
`TcpStream::connect` (`none` models a connect error, which the source
swallows), the active `TlsWrapper::wrap_stream` strategy, `set_nodelay`,
and the handshake engine invocation `client_with_config` (with the config
argument passed through unchanged). -/
structure Engine where
  parse : String → Except Error Uri
  resolve : String → Nat → Except Error (List SocketAddr)
  tcpConnect : SocketAddr → Option TcpStream
  wrap : TcpStream → String → Mode → Except Error ConnStream
  nodelay : ConnStream → Except Error Unit
  handshake : Request → ConnStream → Option Config → EngineResult

/-- Rust `uri_mode` from `src/client/mod.rs`: scheme `ws` is plain, `wss`
is TLS, anything else (including no scheme) is a URL error. -/
def uri_mode (uri : Uri) : Except Error Mode :=
  match uri.scheme with
  | some "ws" => .ok .plain
  | some "wss" => .ok .tls
  | _ => .error (.url "URL scheme not supported")

/-- The `StatusCode::is_redirection` test of the `http` crate: the 3xx
class. -/
abbrev isRedirection (s : Nat) : Prop := 300 ≤ s ∧ s < 400

/-- The `HeaderMap::get` lookup used for the `Location` header: first value
stored under the name. -/
def getHeader (hs : List (String × String)) (name : String) : Option String :=
  (hs.find? (fun p => p.1 == name)).map (fun p => p.2)

/-- Port selection inside `try_client_handshake`:
`uri.port_u16().unwrap_or(match mode { Plain => 80, Tls => 443 })`. -/
def requestPort (uri : Uri) (mode : Mode) : Nat :=
  uri.port.getD (match mode with
    | .plain => 80
    | .tls => 443)

/-- The inner loop of `connect_to_some`, over the resolved address list:
swallow a TCP-connect failure or a wrap failure and advance; return the
first fully wrapped stream; after exhaustion produce the aggregate URL
error naming the target. -/
def connectSomeLoop (env : Engine) (domain : String) (mode : Mode) (uri : Uri) :
    List SocketAddr → Except Error ConnStream
  | [] => .error (.url ("Unable to connect to " ++ uriRender uri))
  | a :: rest =>
    match env.tcpConnect a with
    | some raw =>
      match env.wrap raw domain mode with
      | .ok s => .ok s
      | .error _ => connectSomeLoop env domain mode uri rest
    | none => connectSomeLoop env domain mode uri rest

/-- Rust `connect_to_some`: extract the domain from the URI's host (URL
error when absent), then race the addresses in order. -/
def connect_to_some (env : Engine) (addrs : List SocketAddr) (uri : Uri) (mode : Mode) :
    Except Error ConnStream :=
  match uri.host with
  | none => .error (.url "No host name in the URL")
  | some domain => connectSomeLoop env domain mode uri addrs

/-- Instrumented copy of the `connect_to_some` loop: the second component
records every address a TCP connect was attempted on, the third records the
domain string passed to each `wrap_stream` call.  The first component is
proved equal to `connectSomeLoop` in `connectSomeLoopT_fst`. -/
def connectSomeLoopT (env : Engine) (domain : String) (mode : Mode) (uri : Uri) :
    List SocketAddr → Except Error ConnStream × List SocketAddr × List String
  | [] => (.error (.url ("Unable to connect to " ++ uriRender uri)), [], [])
  | a :: rest =>
    match env.tcpConnect a with
    | some raw =>
      match env.wrap raw domain mode with
      | .ok s => (.ok s, [a], [domain])
      | .error _ =>
        let r := connectSomeLoopT env domain mode uri rest
        (r.1, a :: r.2.1, domain :: r.2.2)
    | none =>
      let r := connectSomeLoopT env domain mode uri rest
      (r.1, a :: r.2.1, r.2.2)

/-- Instrumented `connect_to_some` (same host extraction, traced loop). -/
def connect_to_someT (env : Engine) (addrs : List SocketAddr) (uri : Uri) (mode : Mode) :
    Except Error ConnStream × List SocketAddr × List String :=
  match uri.host with
  | none => (.error (.url "No host name in the URL"), [], [])
  | some domain => connectSomeLoopT env domain mode uri addrs

/-- The per-address failure condition that `connect_to_some` swallows:
either the TCP connect fails, or it succeeds and the wrap fails. -/
def addrFails (env : Engine) (domain : String) (mode : Mode) (a : SocketAddr) : Prop :=
  env.tcpConnect a = none ∨
    ∃ raw e, env.tcpConnect a = some raw ∧ env.wrap raw domain mode = .error e

/-- Rust `try_client_handshake` nested in `connect_with_config`: derive the
mode, extract the host, pick the port, resolve, race the addresses, set
nodelay, and run the handshake engine; `HandshakeError::Interrupted` from a
guaranteed-blocking stream is the panic `Bug: blocking handshake not
blocked`. -/
def tryClientHandshake (env : Engine) (request : Request) (config : Option Config) :
    Outcome (WebSocket × Response) :=
  match uri_mode request.uri with
  | .error e => .err e
  | .ok mode =>
    match request.uri.host with
    | none => .err (.url "No host name in the URL")
    | some host =>
      match env.resolve host (requestPort request.uri mode) with
      | .error e => .err e
      | .ok addrs =>
        match connect_to_some env addrs request.uri mode with
        | .error e => .err e
        | .ok stream =>
          match env.nodelay stream with
          | .error e => .err e
          | .ok _ =>
            match env.handshake request stream config with
            | .success ws res => .ok (ws, res)
            | .failure e => .err e
            | .interrupted => .panic "Bug: blocking handshake not blocked"

/-- Rust `create_request` nested in `connect_with_config`: a fresh request
from the original parts' method, version and headers, with the current
target URI. -/
def create_request (parts : Request) (uri : Uri) : Request :=
  { method := parts.method
    uri := uri
    version := parts.version
    headers := parts.headers }

/-- The body of the `for attempt in 0..(max_redirects + 1)` loop of
`connect_with_config`, with the remaining iteration count made explicit
(`remaining = 0` is the fall-through into
`unreachable!("Bug in a redirect handling logic")`).  The second component
of the result records the request of every handshake attempt performed, in
order; the first component is exactly the source's result. -/
def connectAttempts (env : Engine) (parts : Request) (config : Option Config)
    (maxRedirects : Nat) :
    Nat → Nat → Uri → Outcome (WebSocket × Response) × List Request
  | _, 0, _ => (.panic "Bug in a redirect handling logic", [])
  | attempt, remaining + 1, uri =>
    let request := create_request parts uri
    match tryClientHandshake env request config with
    | .err (.http res) =>
      if isRedirection res.status ∧ attempt < maxRedirects then
        match getHeader res.headers "Location" with
        | some location =>
          match env.parse location with
          | .ok nextUri =>
            let rest := connectAttempts env parts config maxRedirects
              (attempt + 1) remaining nextUri
            (rest.1, request :: rest.2)
          | .error e => (.err e, [request])
        | none => (.err (.http res), [request])
      else (.err (.http res), [request])
    | other => (other, [request])

/-- Rust `connect_with_config`, after input normalization (`parts` is the
result of `into_client_request()?.into_parts()`): run the redirect loop
starting from the parts' URI.  The loop bound `max_redirects + 1` is
computed in `u8` arithmetic, hence the `% 256`. -/
def connect_with_config (env : Engine) (parts : Request) (config : Option Config)
    (maxRedirects : Nat) : Outcome (WebSocket × Response) :=
  (connectAttempts env parts config maxRedirects 0 ((maxRedirects + 1) % 256) parts.uri).1

/-- The trace of handshake attempts (one request per attempt) performed by
`connect_with_config`, from the instrumented loop. -/
def connectTrace (env : Engine) (parts : Request) (config : Option Config)
    (maxRedirects : Nat) : List Request :=
  (connectAttempts env parts config maxRedirects 0 ((maxRedirects + 1) % 256) parts.uri).2

/-! The no-TLS build (`src/client/plain.rs`): the wrapper passes the TCP
stream through under `Mode::Plain` and fails with a URL error under
`Mode::Tls`.  The source has no panic path; result is stated in `Outcome`
to make that visible. -/

namespace PlainWrapper

/-- Rust `plain::Wrapper::wrap_stream`. -/
def wrap_stream (stream : TcpStream) (_domain : String) (mode : Mode) :
    Outcome TcpStream :=
  match mode with
  | .plain => .ok stream
  | .tls => .err (.url "TLS support not compiled in.")

end PlainWrapper

/-! The TLS builds (`src/client/tls.rs`).  The two backend streams are
modelled structurally: the `Stream` switcher from `crate::stream` is a
tagged union over a plain TCP stream and a backend TLS stream. -/

/-- Rust `crate::stream::Stream`, the plain/TLS stream switcher. -/
inductive StreamSwitcher (S : Type) (T : Type) where
  | plain (s : S)
  | tls (t : T)
deriving DecidableEq, Repr

/-- A `native_tls::TlsStream<TcpStream>`, produced by the external
`native_tls` connector; opaque to this layer. -/
structure NativeTlsStream where
  handle : Nat
deriving DecidableEq, Repr

/-- A `rustls::ClientSession`, carrying the DNS name it was created for
(the only input this layer feeds it besides the root-store config). -/
structure ClientSession where
  dnsName : String
deriving DecidableEq, Repr

/-- A `rustls::StreamOwned<ClientSession, TcpStream>`: the session object
paired with the raw socket; no handshake has been performed when it is
constructed. -/
structure StreamOwned where
  sess : ClientSession
  sock : TcpStream
deriving DecidableEq, Repr

/-- The `tls::AutoStream` enum: a backend-tagged stream switcher. -/
inductive TlsAutoStream where
  | nativeTls (s : StreamSwitcher TcpStream NativeTlsStream)
  | rustls (s : StreamSwitcher TcpStream StreamOwned)
deriving DecidableEq, Repr

/-- Outcome of the external `native_tls` connector's `connect` call:
a completed TLS stream, `HandshakeError::Failure` (already converted into
the crate error), or `HandshakeError::WouldBlock`. -/
inductive TlsConnectOutcome where
  | success (t : NativeTlsStream)
  | failure (e : Error)
  | wouldBlock
deriving DecidableEq, Repr

/-- Environment of the external TLS libraries:
`TlsConnector::builder().build()` (may fail), the `native_tls` connector's
`connect(domain, stream)`, and webpki's
`DNSNameRef::try_from_ascii_str(domain)` used by the rustls backend. -/
structure TlsEnv where
  connectorBuild : Except Error Unit
  connect : String → TcpStream → TlsConnectOutcome
  dnsCheck : String → Except Error String

namespace NativeTlsWrapper

/-- Rust `tls::native_tls::Wrapper::wrap_stream` (Backend A): plain mode
passes through; TLS mode builds a connector and performs the synchronous
handshake, propagating a failure and panicking on `WouldBlock`. -/
def wrap_stream (env : TlsEnv) (stream : TcpStream) (domain : String) (mode : Mode) :
    Outcome TlsAutoStream :=
  match mode with
  | .plain => .ok (.nativeTls (.plain stream))
  | .tls =>
    match env.connectorBuild with
    | .error e => .err e
    | .ok _ =>
      match env.connect domain stream with
      | .failure f => .err f
      | .wouldBlock => .panic "Bug: TLS handshake not blocked"
      | .success t => .ok (.nativeTls (.tls t))

end NativeTlsWrapper

namespace RustlsWrapper

/-- Rust `tls::rustls::Wrapper::wrap_stream` (Backend B): plain mode passes
through; TLS mode builds the root-store config, validates the domain as a
DNS name (propagating a failure), constructs a `ClientSession` and returns
the `StreamOwned` immediately — no handshake is performed at wrap time and
there is no would-block branch. -/
def wrap_stream (env : TlsEnv) (stream : TcpStream) (domain : String) (mode : Mode) :
    Outcome TlsAutoStream :=
  match mode with
  | .plain => .ok (.rustls (.plain stream))
  | .tls =>
    match env.dnsCheck domain with
    | .error e => .err e
    | .ok dns => .ok (.rustls (.tls { sess := { dnsName := dns }, sock := stream }))

end RustlsWrapper

/-- A TLS environment in which the handshake would block and the domain is
a valid DNS name: used to compare the two backends' contracts. -/
def wouldBlockTlsEnv : TlsEnv :=
  { connectorBuild := .ok ()
    connect := fun _ _ => .wouldBlock
    dnsCheck := fun d => .ok d }

/-! Normalization (`IntoClientRequest`).  URI parsing belongs to the
external `http` crate, so each embedding takes the parse function as an
explicit argument. -/

/-- Default version of `http::request::Builder` (HTTP/1.1, written 11). -/
def defaultVersion : Nat := 11

/-- The request produced by `Request::get(uri).body(())`: method GET,
default version, no headers. -/
def getRequest (u : Uri) : Request :=
  { method := "GET", uri := u, version := defaultVersion, headers := [] }

/-- Rust `impl IntoClientRequest for Uri`. -/
def intoClientRequestUri (u : Uri) : Except Error Request :=
  .ok (getRequest u)

/-- Rust `impl IntoClientRequest for &Uri` (clones and delegates). -/
def intoClientRequestUriRef (u : Uri) : Except Error Request :=
  intoClientRequestUri u

/-- Rust `impl IntoClientRequest for &str`
(`self.parse::<Uri>()?.into_client_request()`). -/
def intoClientRequestStr (parse : String → Except Error Uri) (s : String) :
    Except Error Request :=
  match parse s with
  | .error e => .error e
  | .ok u => intoClientRequestUri u

/-- Rust `impl IntoClientRequest for String` (delegates to `&str`). -/
def intoClientRequestString (parse : String → Except Error Uri) (s : String) :
    Except Error Request :=
  intoClientRequestStr parse s

/-- Rust `impl IntoClientRequest for &String` (delegates to `&str`). -/
def intoClientRequestStringRef (parse : String → Except Error Uri) (s : String) :
    Except Error Request :=
  intoClientRequestStr parse s

/-- A `url::Url`, abstracted to the `as_str()` accessor the source uses. -/
structure Url where
  asStr : String
deriving DecidableEq, Repr

/-- Rust `impl IntoClientRequest for &Url`
(`self.as_str().into_client_request()`). -/
def intoClientRequestUrlRef (parse : String → Except Error Uri) (u : Url) :
    Except Error Request :=
  intoClientRequestStr parse u.asStr

/-- Rust `impl IntoClientRequest for Url` (same as by reference). -/
def intoClientRequestUrl (parse : String → Except Error Uri) (u : Url) :
    Except Error Request :=
  intoClientRequestStr parse u.asStr

/-- Rust `impl IntoClientRequest for Request` (identity). -/
def intoClientRequestRequest (r : Request) : Except Error Request :=
  .ok r

/-- An `httparse::Request`: optional method and path, optional version,
header list. -/
structure HttparseReq where
  method : Option String
  path : Option String
  version : Option Nat
  headers : List (String × String)
deriving DecidableEq, Repr

/-- Modelled from the spec: `Request::from_httparse` lives in
`crate::handshake::headers`, which is not under `src/`.  Per the spec
(request normalizer, sections 4.1 and 8), normalizing a parsed low-level
request yields a canonical `Request` whose URI matches the input's path
exactly and whose method defaults to GET unless explicitly set, carrying
the input's headers and an empty body, and fails with a URL-kind error when
the input cannot be parsed into a valid URI/request. -/
def from_httparse (parse : String → Except Error Uri) (r : HttparseReq) :
    Except Error Request :=
  match r.path with
  | none => .error (.url "Unable to parse the request")
  | some p =>
    match parse p with
    | .error e => .error e
    | .ok u =>
      .ok { method := r.method.getD "GET"
            uri := u
            version := r.version.getD defaultVersion
            headers := r.headers }

/-- Rust `impl IntoClientRequest for httparse::Request`
(`Request::from_httparse(self)`). -/
def intoClientRequestHttparse (parse : String → Except Error Uri) (r : HttparseReq) :
    Except Error Request :=
  from_httparse parse r

/-! Stub environments used to exercise the redirect driver, following the
spec's testable-properties section: a handshake engine that redirects on
the first `R` attempts and succeeds on attempt `R + 1`.  The attempt index
is carried in the target URI's path, encoded in unary so the engine can
read it back as the path length. -/

/-- Unary encoding of an attempt index as a path string. -/
def mkLoc (n : Nat) : String :=
  String.mk (List.replicate n 'a')

/-- The URI the stub parse function assigns to a location string. -/
def stubUri (s : String) : Uri :=
  { scheme := some "ws", host := some "h", port := none, path := s }

/-- The normalized parts the stub runs start from (initial target URI with
an empty path, standing for attempt 0). -/
def stubParts : Request :=
  { method := "GET", uri := stubUri "", version := 11, headers := [] }

/-- The success response of the stub handshake engine. -/
def stubOkResponse : Response :=
  { status := 101, headers := [] }

/-- The 3xx response the stub engine produces when the request encodes
attempt `n`: a valid `Location` header pointing at attempt `n + 1`. -/
def stubRedirect (n : Nat) : Response :=
  { status := 301, headers := [("Location", mkLoc (n + 1))] }

/-- Stub engine of the spec's redirect-driver property: every external step
succeeds trivially, and the handshake engine returns the 3xx redirect for
the first `R` attempts (attempt indices `0 ≤ n < R`, read off the request
URI's path length) and success on attempt `R`. -/
def stubEnv (R : Nat) : Engine :=
  { parse := fun s => .ok (stubUri s)
    resolve := fun _ _ => .ok [0]
    tcpConnect := fun _ => some 0
    wrap := fun raw _ _ => .ok raw
    nodelay := fun _ => .ok ()
    handshake := fun req _ _ =>
      if req.uri.path.length < R then .failure (.http (stubRedirect req.uri.path.length))
      else .success () stubOkResponse }

/-- Environment whose handshake engine always fails with a redirection
response carrying no `Location` header. -/
def noLocEnv : Engine :=
  { parse := fun s => .ok (stubUri s)
    resolve := fun _ _ => .ok [0]
    tcpConnect := fun _ => some 0
    wrap := fun raw _ _ => .ok raw
    nodelay := fun _ => .ok ()
    handshake := fun _ _ _ => .failure (.http { status := 302, headers := [] }) }

/-- Environment whose resolver reports the port it was handed inside a URL
error, to observe which port a connect attempt targets. -/
def portProbeEnv : Engine :=
  { parse := fun s => .ok (stubUri s)
    resolve := fun _ p => .error (.url ("port:" ++ toString p))
    tcpConnect := fun _ => some 0
    wrap := fun raw _ _ => .ok raw
    nodelay := fun _ => .ok ()
    handshake := fun _ _ _ => .interrupted }

/-- Environment for exercising the address-racing connector: address 0
fails to TCP-connect, address 1 connects but fails to wrap, every other
address connects and wraps to itself. -/
def raceEnv : Engine :=
  { parse := fun s => .ok (stubUri s)
    resolve := fun _ _ => .ok []
    tcpConnect := fun a => if a = 0 then none else some a
    wrap := fun raw _ _ => if raw = 1 then .error (.io "wrap failed") else .ok raw
    nodelay := fun _ => .ok ()
    handshake := fun _ _ _ => .interrupted }

/-- Target URI used with `raceEnv`. -/
def raceUri : Uri :=
  { scheme := some "ws", host := some "race.example", port := none, path := "/" }

/-! Theorems. -/

/-- C6 (counterexample): on scheme `http`, `uri_mode` fails with the fixed
message `URL scheme not supported`, which does not contain the offending
scheme `http` — the error does not name the unsupported scheme. -/
theorem uri_mode_message_cex :
    uri_mode { scheme := some "http", host := some "example.com", port := none, path := "/" } =
      .error (.url "URL scheme not supported") ∧
    ¬ ("http".data <:+: "URL scheme not supported".data) := by
  exact ⟨rfl, by decide⟩

/-- C6 (amended): `uri_mode` maps scheme `ws` to `Plain` and `wss` to
`Tls`; for any other scheme, including an absent one, it fails with a
URL-kind error carrying the fixed message `URL scheme not supported`
(which does not include the scheme itself).  The function is pure: it is a
total function of the URI value alone. -/
theorem uri_mode_spec (uri : Uri) :
    (uri.scheme = some "ws" → uri_mode uri = .ok .plain) ∧
    (uri.scheme = some "wss" → uri_mode uri = .ok .tls) ∧
    (uri.scheme ≠ some "ws" → uri.scheme ≠ some "wss" →
      uri_mode uri = .error (.url "URL scheme not supported")) := by
  refine ⟨fun h => by simp [uri_mode, h], fun h => by simp [uri_mode, h], fun h1 h2 => ?_⟩
  unfold uri_mode
  split
  · simp_all
  · simp_all
  · rfl

/-- Witness for C6: concrete evaluations through `uri_mode_spec`. -/
theorem uri_mode_spec_witness :
    uri_mode { scheme := some "ws", host := some "h", port := none, path := "" } = .ok .plain ∧
    uri_mode { scheme := some "wss", host := some "h", port := none, path := "" } = .ok .tls ∧
    uri_mode { scheme := some "ftp", host := some "h", port := none, path := "" } =
      .error (.url "URL scheme not supported") ∧
    uri_mode { scheme := none, host := some "h", port := none, path := "" } =
      .error (.url "URL scheme not supported") :=
  ⟨(uri_mode_spec _).1 rfl, (uri_mode_spec _).2.1 rfl,
   (uri_mode_spec _).2.2 (by decide) (by decide), (uri_mode_spec _).2.2 (by decide) (by decide)⟩

/-- C10: without a TLS backend, `wrap_stream` returns the input TCP stream
unchanged under `Mode::Plain`, and under `Mode::Tls` returns a URL-kind
error stating that TLS support is not compiled in; it never panics, for
every input stream and domain. -/
theorem plain_wrap_stream_spec (s : TcpStream) (d : String) :
    PlainWrapper.wrap_stream s d .plain = .ok s ∧
    PlainWrapper.wrap_stream s d .tls = .err (.url "TLS support not compiled in.") ∧
    ∀ (m : Mode) (msg : String), PlainWrapper.wrap_stream s d m ≠ .panic msg := by
  refine ⟨rfl, rfl, fun m msg => ?_⟩
  cases m <;> simp [PlainWrapper.wrap_stream]

/-- Witness for C10: concrete evaluations through `plain_wrap_stream_spec`. -/
theorem plain_wrap_stream_spec_witness :
    PlainWrapper.wrap_stream 5 "example.com" .plain = .ok 5 ∧
    PlainWrapper.wrap_stream 5 "example.com" .tls =
      .err (.url "TLS support not compiled in.") ∧
    PlainWrapper.wrap_stream 5 "example.com" .tls ≠ .panic "boom" :=
  ⟨(plain_wrap_stream_spec 5 "example.com").1,
   (plain_wrap_stream_spec 5 "example.com").2.1,
   (plain_wrap_stream_spec 5 "example.com").2.2 .tls "boom"⟩

/-- C3 (counterexample): under an environment in which the TLS handshake
reports it would block (and the domain is a valid DNS name), Backend A's
`wrap_stream` traps with `Bug: TLS handshake not blocked`, while Backend
B's `wrap_stream` returns a successfully wrapped stream — the rustls
backend neither performs the synchronous handshake nor traps, so its
contract differs from Backend A's. -/
theorem tls_backend_contract_cex :
    NativeTlsWrapper.wrap_stream wouldBlockTlsEnv 7 "example.com" .tls =
      .panic "Bug: TLS handshake not blocked" ∧
    RustlsWrapper.wrap_stream wouldBlockTlsEnv 7 "example.com" .tls =
      .ok (.rustls (.tls { sess := { dnsName := "example.com" }, sock := 7 })) :=
  ⟨rfl, rfl⟩

/-- C3 (amended): Backend B's `wrap_stream` passes the stream through under
`Mode::Plain` like Backend A, but under `Mode::Tls` it performs no TLS
handshake at wrap time: it validates the domain as a DNS name, propagating
an invalid-name failure as an error, and otherwise returns a
session-carrying stream whose handshake is deferred; it never panics and
its result is independent of the TLS connector's handshake behaviour. -/
theorem rustls_wrap_stream_spec (env : TlsEnv) (s : TcpStream) (d : String) (m : Mode) :
    RustlsWrapper.wrap_stream env s d .plain = .ok (.rustls (.plain s)) ∧
    (∀ e, env.dnsCheck d = .error e → RustlsWrapper.wrap_stream env s d .tls = .err e) ∧
    (∀ dns, env.dnsCheck d = .ok dns →
      RustlsWrapper.wrap_stream env s d .tls =
        .ok (.rustls (.tls { sess := { dnsName := dns }, sock := s }))) ∧
    (∀ msg, RustlsWrapper.wrap_stream env s d m ≠ .panic msg) ∧
    (∀ env2 : TlsEnv, env.dnsCheck = env2.dnsCheck →
      RustlsWrapper.wrap_stream env s d m = RustlsWrapper.wrap_stream env2 s d m) := by
  refine ⟨rfl, fun e he => by simp [RustlsWrapper.wrap_stream, he],
    fun dns hd => by simp [RustlsWrapper.wrap_stream, hd],
    fun msg => ?_, fun env2 h12 => ?_⟩
  · cases m
    · simp [RustlsWrapper.wrap_stream]
    · cases hd : env.dnsCheck d <;> simp [RustlsWrapper.wrap_stream, hd]
  · cases m
    · rfl
    · simp [RustlsWrapper.wrap_stream, h12]

/-- Witness for C3: concrete evaluations through `rustls_wrap_stream_spec`. -/
theorem rustls_wrap_stream_spec_witness :
    RustlsWrapper.wrap_stream wouldBlockTlsEnv 3 "example.com" .tls =
      .ok (.rustls (.tls { sess := { dnsName := "example.com" }, sock := 3 })) ∧
    RustlsWrapper.wrap_stream wouldBlockTlsEnv 3 "example.com" .plain =
      .ok (.rustls (.plain 3)) ∧
    RustlsWrapper.wrap_stream wouldBlockTlsEnv 3 "example.com" .tls ≠ .panic "boom" :=
  ⟨(rustls_wrap_stream_spec wouldBlockTlsEnv 3 "example.com" .tls).2.2.1 "example.com" rfl,
   (rustls_wrap_stream_spec wouldBlockTlsEnv 3 "example.com" .plain).1,
   (rustls_wrap_stream_spec wouldBlockTlsEnv 3 "example.com" .tls).2.2.2.1 "boom"⟩

/-- C8: when the current URI carries no explicit port, the connect attempt
targets port 80 under `Mode::Plain` and 443 under `Mode::Tls`; an explicit
port is used verbatim.  The third conjunct observes this through
`tryClientHandshake`: a resolver that reports the port it was handed shows
the connect attempt targeting exactly `requestPort`. -/
theorem request_port_spec (uri : Uri) :
    (uri.port = none → requestPort uri .plain = 80 ∧ requestPort uri .tls = 443) ∧
    (∀ p m, uri.port = some p → requestPort uri m = p) ∧
    (∀ (req : Request) (cfg : Option Config) (mode : Mode) (hst : String),
      req.uri = uri → uri_mode uri = .ok mode → uri.host = some hst →
      tryClientHandshake portProbeEnv req cfg =
        .err (.url ("port:" ++ toString (requestPort uri mode)))) := by
  refine ⟨fun h => by simp [requestPort, h], fun p m h => by simp [requestPort, h],
    fun req cfg mode hst hrq hm hh => ?_⟩
  simp [tryClientHandshake, hrq, hm, hh, portProbeEnv]

/-- Witness for C8: concrete evaluations through `request_port_spec`. -/
theorem request_port_spec_witness :
    requestPort { scheme := some "ws", host := some "h", port := none, path := "" } .plain = 80 ∧
    requestPort { scheme := some "wss", host := some "h", port := none, path := "" } .tls = 443 ∧
    requestPort { scheme := some "wss", host := some "h", port := some 9001, path := "" } .tls =
      9001 ∧
    tryClientHandshake portProbeEnv
        { method := "GET", uri := { scheme := some "wss", host := some "h", port := none, path := "" },
          version := 11, headers := [] } none =
      .err (.url ("port:" ++ toString (requestPort
        { scheme := some "wss", host := some "h", port := none, path := "" } .tls))) :=
  ⟨((request_port_spec _).1 rfl).1, ((request_port_spec _).1 rfl).2,
   (request_port_spec _).2.1 9001 .tls rfl,
   (request_port_spec _).2.2 _ none .tls "h" rfl rfl rfl⟩

/-- The instrumented connector loop computes the same result as the
source's loop. -/
theorem connectSomeLoopT_fst (env : Engine) (domain : String) (mode : Mode) (uri : Uri) :
    ∀ addrs, (connectSomeLoopT env domain mode uri addrs).1 =
      connectSomeLoop env domain mode uri addrs := by
  intro addrs
  induction addrs with
  | nil => rfl
  | cons a rest ih =>
    simp only [connectSomeLoopT, connectSomeLoop]
    cases h1 : env.tcpConnect a with
    | none => simp [h1, ih]
    | some raw =>
      cases h2 : env.wrap raw domain mode with
      | ok s => simp [h1, h2]
      | error e => simp [h1, h2, ih]

/-- Every domain handed to a `wrap_stream` call by the connector loop is
the one it was given. -/
theorem connectSomeLoopT_domains (env : Engine) (domain : String) (mode : Mode) (uri : Uri) :
    ∀ addrs d, d ∈ (connectSomeLoopT env domain mode uri addrs).2.2 → d = domain := by
  intro addrs
  induction addrs with
  | nil => intro d hd; simp [connectSomeLoopT] at hd
  | cons a rest ih =>
    intro d hd
    simp only [connectSomeLoopT] at hd
    cases h1 : env.tcpConnect a with
    | none =>
      simp only [h1] at hd
      exact ih d hd
    | some raw =>
      cases h2 : env.wrap raw domain mode with
      | ok s =>
        simp only [h1, h2, List.mem_singleton] at hd
        exact hd
      | error e =>
        simp only [h1, h2, List.mem_cons] at hd
        rcases hd with rfl | hd
        · rfl
        · exact ih d hd

/-- If every address of a leading segment fails (TCP connect or wrap) and
the next address succeeds both, the connector loop returns that address's
wrapped stream, having attempted TCP connects exactly on the segment plus
that address — no later address is touched. -/
theorem connectSomeLoopT_success (env : Engine) (domain : String) (mode : Mode) (uri : Uri) :
    ∀ pre a post raw s, (∀ b ∈ pre, addrFails env domain mode b) →
      env.tcpConnect a = some raw → env.wrap raw domain mode = .ok s →
      connectSomeLoopT env domain mode uri (pre ++ a :: post) = (.ok s, pre ++ [a], [domain]) ∨
        ∃ doms, connectSomeLoopT env domain mode uri (pre ++ a :: post) =
          (.ok s, pre ++ [a], doms) := by
  intro pre
  induction pre with
  | nil =>
    intro a post raw s _ hc hw
    left
    simp [connectSomeLoopT, hc, hw]
  | cons b pre ih =>
    intro a post raw s hfail hc hw
    have hb : addrFails env domain mode b := hfail b (by simp)
    have hrest : ∀ c ∈ pre, addrFails env domain mode c :=
      fun c hcmem => hfail c (by simp [hcmem])
    have ihr := ih a post raw s hrest hc hw
    right
    rcases hb with hb | ⟨raw2, e2, hb1, hb2⟩
    · simp only [List.cons_append, connectSomeLoopT, hb]
      rcases ihr with h | ⟨doms, h⟩
      · exact ⟨[domain], by simp [h]⟩
      · exact ⟨doms, by simp [h]⟩
    · simp only [List.cons_append, connectSomeLoopT, hb1, hb2]
      rcases ihr with h | ⟨doms, h⟩
      · exact ⟨domain :: [domain], by simp [h]⟩
      · exact ⟨domain :: doms, by simp [h]⟩

/-- If every address fails, the connector loop produces the aggregate URL
error naming the target. -/
theorem connectSomeLoopT_exhaust (env : Engine) (domain : String) (mode : Mode) (uri : Uri) :
    ∀ addrs, (∀ b ∈ addrs, addrFails env domain mode b) →
      (connectSomeLoopT env domain mode uri addrs).1 =
        .error (.url ("Unable to connect to " ++ uriRender uri)) := by
  intro addrs
  induction addrs with
  | nil => intro _; rfl
  | cons b rest ih =>
    intro hfail
    have hb : addrFails env domain mode b := hfail b (by simp)
    have hrest := ih fun c hc => hfail c (by simp [hc])
    rcases hb with hb | ⟨raw2, e2, hb1, hb2⟩
    · simp [connectSomeLoopT, hb, hrest]
    · simp [connectSomeLoopT, hb1, hb2, hrest]

/-- C4: the address-racing connector tries addresses in order, swallowing
per-address TCP-connect and wrap failures; it returns the wrapped stream of
the first address for which both steps succeed, attempting no later
address; every `wrap_stream` call receives the original URI's host as the
TLS domain; and an exhausted list yields one URL-kind error whose message
names the unreachable target. -/
theorem connect_to_some_spec (env : Engine) (addrs : List SocketAddr) (uri : Uri)
    (mode : Mode) (hst : String) (hh : uri.host = some hst) :
    (∀ d ∈ (connect_to_someT env addrs uri mode).2.2, d = hst) ∧
    (∀ pre a post raw s, addrs = pre ++ a :: post →
      (∀ b ∈ pre, addrFails env hst mode b) →
      env.tcpConnect a = some raw → env.wrap raw hst mode = .ok s →
      connect_to_some env addrs uri mode = .ok s ∧
        (connect_to_someT env addrs uri mode).2.1 = pre ++ [a]) ∧
    ((∀ b ∈ addrs, addrFails env hst mode b) →
      connect_to_some env addrs uri mode =
        .error (.url ("Unable to connect to " ++ uriRender uri))) ∧
    (connect_to_someT env addrs uri mode).1 = connect_to_some env addrs uri mode := by
  have hT : connect_to_someT env addrs uri mode = connectSomeLoopT env hst mode uri addrs := by
    simp [connect_to_someT, hh]
  have hS : connect_to_some env addrs uri mode = connectSomeLoop env hst mode uri addrs := by
    simp [connect_to_some, hh]
  refine ⟨?_, ?_, ?_, ?_⟩
  · intro d hd
    rw [hT] at hd
    exact connectSomeLoopT_domains env hst mode uri addrs d hd
  · intro pre a post raw s heq hfail hc hw
    subst heq
    have h := connectSomeLoopT_success env hst mode uri pre a post raw s hfail hc hw
    have hfst := connectSomeLoopT_fst env hst mode uri (pre ++ a :: post)
    rcases h with h | ⟨doms, h⟩ <;>
      exact ⟨by rw [hS, ← hfst, h], by rw [hT, h]⟩
  · intro hfail
    rw [hS, ← connectSomeLoopT_fst]
    exact connectSomeLoopT_exhaust env hst mode uri addrs hfail
  · rw [hT, hS, connectSomeLoopT_fst]

/-- Witness for C4: under `raceEnv` (address 0 fails to connect, address 1
fails to wrap, address 2 succeeds), the connector returns address 2's
stream having attempted exactly addresses 0, 1, 2, and with all addresses
failing it produces the aggregate URL error. -/
theorem connect_to_some_spec_witness :
    (connect_to_some raceEnv [0, 1, 2] raceUri .plain = .ok 2 ∧
      (connect_to_someT raceEnv [0, 1, 2] raceUri .plain).2.1 = [0, 1, 2]) ∧
    connect_to_some raceEnv [0, 1] raceUri .plain =
      .error (.url ("Unable to connect to " ++ uriRender raceUri)) :=
  ⟨(connect_to_some_spec raceEnv [0, 1, 2] raceUri .plain "race.example" rfl).2.1
      [0, 1] 2 [] 2 2 rfl
      (by
        intro b hb
        simp at hb
        rcases hb with rfl | rfl
        · exact Or.inl rfl
        · exact Or.inr ⟨1, .io "wrap failed", rfl, rfl⟩)
      rfl rfl,
   (connect_to_some_spec raceEnv [0, 1] raceUri .plain "race.example" rfl).2.2.1
      (by
        intro b hb
        simp at hb
        rcases hb with rfl | rfl
        · exact Or.inl rfl
        · exact Or.inr ⟨1, .io "wrap failed", rfl, rfl⟩)⟩

/-- Step equation for the redirect loop: a non-erroring attempt returns the
success immediately. -/
theorem connectAttempts_step_ok {env : Engine} {parts : Request} {cfg : Option Config}
    {maxR attempt rem : Nat} {uri : Uri} {x : WebSocket × Response}
    (h : tryClientHandshake env (create_request parts uri) cfg = .ok x) :
    connectAttempts env parts cfg maxR attempt (rem + 1) uri =
      (.ok x, [create_request parts uri]) := by
  simp only [connectAttempts]
  rw [h]

/-- Step equation for the redirect loop: a redirection-class HTTP error
with remaining budget and a parseable `Location` header re-enters the loop
on the next URI. -/
theorem connectAttempts_step_redirect {env : Engine} {parts : Request} {cfg : Option Config}
    {maxR attempt rem : Nat} {uri nextUri : Uri} {res : Response} {location : String}
    (h : tryClientHandshake env (create_request parts uri) cfg = .err (.http res))
    (hg : isRedirection res.status ∧ attempt < maxR)
    (hl : getHeader res.headers "Location" = some location)
    (hp : env.parse location = .ok nextUri) :
    connectAttempts env parts cfg maxR attempt (rem + 1) uri =
      ((connectAttempts env parts cfg maxR (attempt + 1) rem nextUri).1,
        create_request parts uri ::
          (connectAttempts env parts cfg maxR (attempt + 1) rem nextUri).2) := by
  simp only [connectAttempts]
  rw [h]
  dsimp only
  rw [if_pos hg, hl]
  dsimp only
  rw [hp]

/-- Step equation for the redirect loop: a redirection-class HTTP error
with remaining budget but no `Location` header returns the original error
at once. -/
theorem connectAttempts_step_no_location {env : Engine} {parts : Request}
    {cfg : Option Config} {maxR attempt rem : Nat} {uri : Uri} {res : Response}
    (h : tryClientHandshake env (create_request parts uri) cfg = .err (.http res))
    (hg : isRedirection res.status ∧ attempt < maxR)
    (hl : getHeader res.headers "Location" = none) :
    connectAttempts env parts cfg maxR attempt (rem + 1) uri =
      (.err (.http res), [create_request parts uri]) := by
  simp only [connectAttempts]
  rw [h]
  dsimp only
  rw [if_pos hg, hl]

/-- Step equation for the redirect loop: an HTTP error that is not a
redirect with remaining budget falls to the catch-all arm and is returned
unchanged. -/
theorem connectAttempts_step_http_stop {env : Engine} {parts : Request}
    {cfg : Option Config} {maxR attempt rem : Nat} {uri : Uri} {res : Response}
    (h : tryClientHandshake env (create_request parts uri) cfg = .err (.http res))
    (hg : ¬(isRedirection res.status ∧ attempt < maxR)) :
    connectAttempts env parts cfg maxR attempt (rem + 1) uri =
      (.err (.http res), [create_request parts uri]) := by
  simp only [connectAttempts]
  rw [h]
  dsimp only
  rw [if_neg hg]

/-- The redirect loop performs at most as many attempts as it has loop
iterations available. -/
theorem connectAttempts_length_le (env : Engine) (parts : Request) (cfg : Option Config)
    (maxR : Nat) : ∀ rem attempt uri,
    (connectAttempts env parts cfg maxR attempt rem uri).2.length ≤ rem := by
  intro rem
  induction rem with
  | zero => intro attempt uri; simp [connectAttempts]
  | succ n ih =>
    intro attempt uri
    simp only [connectAttempts]
    split
    · split
      · split
        · split
          · simp only [List.length_cons]
            exact Nat.succ_le_succ (ih _ _)
          · simp
        · simp
      · simp
    · simp

/-- Every request in the redirect loop's attempt trace was built by
`create_request` from the original parts. -/
theorem connectAttempts_trace_shape (env : Engine) (parts : Request) (cfg : Option Config)
    (maxR : Nat) : ∀ rem attempt uri r,
    r ∈ (connectAttempts env parts cfg maxR attempt rem uri).2 →
    ∃ u, r = create_request parts u := by
  intro rem
  induction rem with
  | zero => intro attempt uri r hr; simp [connectAttempts] at hr
  | succ n ih =>
    intro attempt uri r hr
    simp only [connectAttempts] at hr
    split at hr
    · split at hr
      · split at hr
        · split at hr
          · simp only [List.mem_cons] at hr
            rcases hr with rfl | hr
            · exact ⟨uri, rfl⟩
            · exact ih _ _ r hr
          · simp only [List.mem_singleton] at hr
            exact ⟨uri, hr⟩
        · simp only [List.mem_singleton] at hr
          exact ⟨uri, hr⟩
      · simp only [List.mem_singleton] at hr
        exact ⟨uri, hr⟩
    · simp only [List.mem_singleton] at hr
      exact ⟨uri, hr⟩

/-- C1 (code bug, failing input): at `max_redirects = 255` the loop bound
`max_redirects + 1` wraps to `0` in `u8` arithmetic, so for every
environment, request and configuration the loop body never runs — zero
handshake attempts — and `connect_with_config` falls through into
`unreachable!("Bug in a redirect handling logic")` instead of returning. -/
theorem connect_unreachable_at_255 (env : Engine) (parts : Request) (cfg : Option Config) :
    connect_with_config env parts cfg 255 = .panic "Bug in a redirect handling logic" ∧
    connectTrace env parts cfg 255 = [] :=
  ⟨rfl, rfl⟩

/-- C5: when an attempt of the redirect loop fails with an HTTP error whose
response has a 3xx status but no `Location` header, the loop returns that
original HTTP error immediately with zero further attempts (the failing
attempt is the only one performed from that state), regardless of how much
redirect budget remains — the `attempt < max_redirects` guard does not
matter, as both branches return the same error. -/
theorem redirect_no_location_spec (env : Engine) (parts : Request) (cfg : Option Config)
    (maxR attempt rem : Nat) (uri : Uri) (res : Response)
    (hh : tryClientHandshake env (create_request parts uri) cfg = .err (.http res))
    (_hred : isRedirection res.status)
    (hloc : getHeader res.headers "Location" = none) :
    connectAttempts env parts cfg maxR attempt (rem + 1) uri =
      (.err (.http res), [create_request parts uri]) := by
  by_cases hc : attempt < maxR
  · exact connectAttempts_step_no_location hh ⟨_hred, hc⟩ hloc
  · exact connectAttempts_step_http_stop hh (fun hand => hc hand.2)

/-- Witness for C5: under `noLocEnv` (which always answers with a 302
response carrying no `Location` header), the loop with plenty of budget
returns the original HTTP error after a single attempt. -/
theorem redirect_no_location_spec_witness :
    connectAttempts noLocEnv stubParts none 3 0 4 (stubUri "") =
      (.err (.http { status := 302, headers := [] }),
        [create_request stubParts (stubUri "")]) :=
  redirect_no_location_spec noLocEnv stubParts none 3 0 3 (stubUri "")
    { status := 302, headers := [] } rfl (by decide) rfl

/-- C9: `create_request` builds each attempt's request from the original
parts' method, version and headers unchanged, with only the URI replaced;
consequently every request in the attempt trace of `connect_with_config`
carries exactly the original method, version and headers. -/
theorem create_request_preserves_parts (parts : Request) (uri : Uri) :
    (create_request parts uri).method = parts.method ∧
    (create_request parts uri).version = parts.version ∧
    (create_request parts uri).headers = parts.headers ∧
    (create_request parts uri).uri = uri ∧
    ∀ (env : Engine) (cfg : Option Config) (m : Nat) (r : Request),
      r ∈ connectTrace env parts cfg m →
      r.method = parts.method ∧ r.version = parts.version ∧ r.headers = parts.headers := by
  refine ⟨rfl, rfl, rfl, rfl, fun env cfg m r hr => ?_⟩
  obtain ⟨u, rfl⟩ := connectAttempts_trace_shape env parts cfg m _ 0 parts.uri r hr
  exact ⟨rfl, rfl, rfl⟩

/-- Witness for C9: the request of the only attempt under `stubEnv 0` with
no redirect budget carries the original parts' method, version and
headers. -/
theorem create_request_preserves_parts_witness :
    (create_request stubParts (stubUri "/x")).method = stubParts.method ∧
    (create_request stubParts (stubUri "/x")).uri = stubUri "/x" ∧
    (create_request stubParts (stubUri "")).method = stubParts.method ∧
    (create_request stubParts (stubUri "")).version = stubParts.version ∧
    (create_request stubParts (stubUri "")).headers = stubParts.headers :=
  ⟨(create_request_preserves_parts stubParts (stubUri "/x")).1,
   (create_request_preserves_parts stubParts (stubUri "/x")).2.2.2.1,
   ((create_request_preserves_parts stubParts (stubUri "")).2.2.2.2
      (stubEnv 0) none 0 (create_request stubParts (stubUri "")) (by decide)).1,
   ((create_request_preserves_parts stubParts (stubUri "")).2.2.2.2
      (stubEnv 0) none 0 (create_request stubParts (stubUri "")) (by decide)).2.1,
   ((create_request_preserves_parts stubParts (stubUri "")).2.2.2.2
      (stubEnv 0) none 0 (create_request stubParts (stubUri "")) (by decide)).2.2⟩

/-- Length of the unary attempt-index encoding. -/
theorem mkLoc_length (n : Nat) : (mkLoc n).length = n := by
  simp [mkLoc, String.length]

/-- Evaluation of one handshake attempt under the stub engine: a request
whose URI path encodes attempt `n` yields the 3xx redirect to attempt
`n + 1` while `n < R`, and success once `n = R` is reached. -/
theorem stub_try (R : Nat) (s : String) :
    tryClientHandshake (stubEnv R) (create_request stubParts (stubUri s)) none =
      if s.length < R then .err (.http (stubRedirect s.length))
      else .ok ((), stubOkResponse) := by
  by_cases h : s.length < R <;>
    simp [tryClientHandshake, stubEnv, stubParts, stubUri, create_request, uri_mode,
      requestPort, connect_to_some, connectSomeLoop, h]

/-- Under the stub engine with `R` redirects, a loop state at attempt
`attempt ≤ R` with enough iterations left (`attempt + rem = maxR + 1`) and
enough budget (`R ≤ maxR`) reaches the success on attempt `R`, performing
exactly `R + 1 - attempt` further attempts. -/
theorem stub_loop_success (R maxR : Nat) : ∀ rem attempt,
    attempt + rem = maxR + 1 → attempt ≤ R → R ≤ maxR →
    ∃ tr, connectAttempts (stubEnv R) stubParts none maxR attempt rem (stubUri (mkLoc attempt)) =
      (.ok ((), stubOkResponse), tr) ∧ tr.length = R + 1 - attempt := by
  intro rem
  induction rem with
  | zero =>
    intro attempt h1 h2 h3
    exfalso
    omega
  | succ n ih =>
    intro attempt h1 h2 h3
    by_cases hR : attempt = R
    · subst hR
      rw [connectAttempts_step_ok (by rw [stub_try, mkLoc_length, if_neg (lt_irrefl _)])]
      exact ⟨[create_request stubParts (stubUri (mkLoc attempt))], rfl,
        by simp only [List.length_singleton]; omega⟩
    · have hlt : attempt < R := lt_of_le_of_ne h2 hR
      have hloc : getHeader (stubRedirect attempt).headers "Location" =
          some (mkLoc (attempt + 1)) := by
        simp [stubRedirect, getHeader]
      rw [connectAttempts_step_redirect
        (by rw [stub_try, mkLoc_length, if_pos hlt])
        ⟨by simp [stubRedirect, isRedirection], by omega⟩ hloc rfl]
      obtain ⟨tr, htr, hlen⟩ := ih (attempt + 1) (by omega) (by omega) h3
      rw [htr]
      exact ⟨create_request stubParts (stubUri (mkLoc attempt)) :: tr, rfl,
        by simp only [List.length_cons, hlen]; omega⟩

/-- Under the stub engine with `R` redirects and `maxR < R`, a loop state
at attempt `attempt ≤ maxR` with `attempt + rem = maxR + 1` iterations
left exhausts the budget: it returns the 3xx error produced on attempt
`maxR` (the attempt at which the bound was reached), having performed
exactly `maxR + 1 - attempt` further attempts. -/
theorem stub_loop_bound (R maxR : Nat) : ∀ rem attempt,
    attempt + rem = maxR + 1 → attempt ≤ maxR → maxR < R →
    ∃ tr, connectAttempts (stubEnv R) stubParts none maxR attempt rem (stubUri (mkLoc attempt)) =
      (.err (.http (stubRedirect maxR)), tr) ∧ tr.length = maxR + 1 - attempt := by
  intro rem
  induction rem with
  | zero =>
    intro attempt h1 h2 h3
    exfalso
    omega
  | succ n ih =>
    intro attempt h1 h2 h3
    have hlt : attempt < R := by omega
    have hh : tryClientHandshake (stubEnv R)
        (create_request stubParts (stubUri (mkLoc attempt))) none =
        .err (.http (stubRedirect attempt)) := by
      rw [stub_try, mkLoc_length, if_pos hlt]
    by_cases hM : attempt = maxR
    · subst hM
      rw [connectAttempts_step_http_stop hh (by simp)]
      exact ⟨[create_request stubParts (stubUri (mkLoc attempt))], rfl,
        by simp only [List.length_singleton]; omega⟩
    · have hloc : getHeader (stubRedirect attempt).headers "Location" =
          some (mkLoc (attempt + 1)) := by
        simp [stubRedirect, getHeader]
      rw [connectAttempts_step_redirect hh
        ⟨by simp [stubRedirect, isRedirection], by omega⟩ hloc rfl]
      obtain ⟨tr, htr, hlen⟩ := ih (attempt + 1) (by omega) (by omega) h3
      rw [htr]
      exact ⟨create_request stubParts (stubUri (mkLoc attempt)) :: tr, rfl,
        by simp only [List.length_cons, hlen]; omega⟩

/-- C2 (counterexample): the claim quantifies over every `max_redirects`,
but at `max_redirects = 255` with a stub engine that succeeds on the very
first attempt (`R = 0`, so `max_redirects ≥ R`), the driver performs zero
attempts and panics in its unreachable branch instead of returning the
success result: the `u8` computation `255 + 1` wraps to `0`. -/
theorem redirect_driver_stub_cex :
    connect_with_config (stubEnv 0) stubParts none 255 =
      .panic "Bug in a redirect handling logic" ∧
    (connectTrace (stubEnv 0) stubParts none 255).length = 0 :=
  ⟨rfl, rfl⟩

/-- C2 (amended, restricted to `max_redirects ≤ 254` where the `u8` bound
computation does not overflow): against a stub handshake engine returning
a 3xx error with a valid `Location` header on the first `R` attempts and
success on attempt `R + 1`, the driver with `max_redirects ≥ R` performs
exactly `R + 1` attempts and returns the success result; with
`max_redirects < R` it performs `max_redirects + 1` attempts and returns
the HTTP error produced at the attempt where the bound was reached. -/
theorem redirect_driver_stub_spec (R m : Nat) (hm : m ≤ 254) :
    (R ≤ m → connect_with_config (stubEnv R) stubParts none m = .ok ((), stubOkResponse) ∧
      (connectTrace (stubEnv R) stubParts none m).length = R + 1) ∧
    (m < R → connect_with_config (stubEnv R) stubParts none m = .err (.http (stubRedirect m)) ∧
      (connectTrace (stubEnv R) stubParts none m).length = m + 1) := by
  have hmod : (m + 1) % 256 = m + 1 := Nat.mod_eq_of_lt (by omega)
  have huri : stubParts.uri = stubUri (mkLoc 0) := by decide
  constructor
  · intro hR
    obtain ⟨tr, htr, hlen⟩ := stub_loop_success R m (m + 1) 0 (by omega) (by omega) hR
    unfold connect_with_config connectTrace
    rw [hmod, huri, htr]
    exact ⟨rfl, by simpa using hlen⟩
  · intro hR
    obtain ⟨tr, htr, hlen⟩ := stub_loop_bound R m (m + 1) 0 (by omega) (by omega) hR
    unfold connect_with_config connectTrace
    rw [hmod, huri, htr]
    exact ⟨rfl, by simpa using hlen⟩

/-- Witness for C2: concrete runs through `redirect_driver_stub_spec`:
two redirects then success within budget 2 gives two redirected attempts
plus the successful one; three redirects against budget 1 stops with the
redirect error of attempt index 1 after two attempts. -/
theorem redirect_driver_stub_spec_witness :
    (connect_with_config (stubEnv 1) stubParts none 2 = .ok ((), stubOkResponse) ∧
      (connectTrace (stubEnv 1) stubParts none 2).length = 2) ∧
    (connect_with_config (stubEnv 3) stubParts none 1 = .err (.http (stubRedirect 1)) ∧
      (connectTrace (stubEnv 3) stubParts none 1).length = 2) :=
  ⟨(redirect_driver_stub_spec 1 2 (by omega)).1 (by omega),
   (redirect_driver_stub_spec 3 1 (by omega)).2 (by omega)⟩

/-- C7: for every supported input variant, `into_client_request` produces a
`Request` whose URI is exactly the input's (parsed) URI and whose method
defaults to GET unless the input carries one; applying it to an
already-built `Request` is the identity.  Text inputs (string slice, owned
string, URL by reference or owned) all funnel through the string-slice
implementation, parsing the text into a URI first; a URI input (owned or by
reference) becomes `Request::get(uri).body(())`; a parsed httparse request
keeps its own method and headers. -/
theorem into_client_request_spec (parse : String → Except Error Uri) (s : String)
    (u : Uri) (url : Url) (r : Request) (hr : HttparseReq) (p : String) :
    (intoClientRequestUri u = .ok (getRequest u) ∧
      intoClientRequestUriRef u = intoClientRequestUri u ∧
      (getRequest u).uri = u ∧ (getRequest u).method = "GET") ∧
    (parse s = .ok u →
      intoClientRequestStr parse s = .ok (getRequest u) ∧
      intoClientRequestString parse s = .ok (getRequest u) ∧
      intoClientRequestStringRef parse s = .ok (getRequest u)) ∧
    (parse url.asStr = .ok u →
      intoClientRequestUrl parse url = .ok (getRequest u) ∧
      intoClientRequestUrlRef parse url = .ok (getRequest u)) ∧
    intoClientRequestRequest r = .ok r ∧
    (hr.path = some p → parse p = .ok u →
      intoClientRequestHttparse parse hr =
        .ok { method := hr.method.getD "GET", uri := u,
              version := hr.version.getD defaultVersion, headers := hr.headers }) := by
  refine ⟨⟨rfl, rfl, rfl, rfl⟩, fun hp => ?_, fun hp => ?_, rfl, fun hpath hp => ?_⟩
  · refine ⟨?_, ?_, ?_⟩ <;>
      simp [intoClientRequestStr, intoClientRequestString, intoClientRequestStringRef,
        intoClientRequestUri, hp]
  · constructor <;>
      simp [intoClientRequestUrl, intoClientRequestUrlRef, intoClientRequestStr,
        intoClientRequestUri, hp]
  · simp [intoClientRequestHttparse, from_httparse, hpath, hp]

/-- Witness for C7: concrete evaluations through `into_client_request_spec`
with the stub parse function. -/
theorem into_client_request_spec_witness :
    (intoClientRequestStr (fun s => .ok (stubUri s)) "/w" = .ok (getRequest (stubUri "/w")) ∧
      intoClientRequestUrl (fun s => .ok (stubUri s)) { asStr := "/w" } =
        .ok (getRequest (stubUri "/w"))) ∧
    intoClientRequestRequest stubParts = .ok stubParts ∧
    intoClientRequestHttparse (fun s => .ok (stubUri s))
        { method := some "POST", path := some "/w", version := some 11,
          headers := [("Host", "h")] } =
      .ok { method := "POST", uri := stubUri "/w", version := 11,
            headers := [("Host", "h")] } :=
  ⟨⟨((into_client_request_spec (fun s => .ok (stubUri s)) "/w" (stubUri "/w")
        { asStr := "/w" } stubParts
        { method := some "POST", path := some "/w", version := some 11,
          headers := [("Host", "h")] } "/w").2.1 rfl).1,
    ((into_client_request_spec (fun s => .ok (stubUri s)) "/w" (stubUri "/w")
        { asStr := "/w" } stubParts
        { method := some "POST", path := some "/w", version := some 11,
          headers := [("Host", "h")] } "/w").2.2.1 rfl).1⟩,
   (into_client_request_spec (fun s => .ok (stubUri s)) "/w" (stubUri "/w")
        { asStr := "/w" } stubParts
        { method := some "POST", path := some "/w", version := some 11,
          headers := [("Host", "h")] } "/w").2.2.2.1,
   (into_client_request_spec (fun s => .ok (stubUri s)) "/w" (stubUri "/w")
        { asStr := "/w" } stubParts
        { method := some "POST", path := some "/w", version := some 11,
          headers := [("Host", "h")] } "/w").2.2.2.2 rfl rfl⟩

end WsClient
